/-
Verification of `gpytorch/models/pyro_deep_gp.py` (lrast/gpytorch).

The file embeds the module shallowly:
* tensors are shape lists plus row-major rational data; every torch
  operation used by the source is a fallible (`Option`) function whose
  success conditions mirror the runtime checks of the original library;
* the probabilistic sample sites are made explicit: the value drawn at a
  `pyro.sample` site and the standard-normal draw behind `rsample` are
  passed in as parameters, so the model functions are deterministic
  functions of (inputs, draws);
* the collaborators that live outside this source file (the lazy-tensor
  factorization, the likelihood, the GP prior `forward`) are modelled from
  the spec as exact rational linear algebra and abstract record fields;
* Python name resolution and the rule that a non-default parameter may not
  follow a defaulted one are modelled explicitly, because several claims
  are about NameError / AttributeError / SyntaxError behavior.
-/
import Mathlib

set_option maxHeartbeats 1000000

/-- Python-level runtime errors relevant to this module. -/
inductive PyErr where
  | shape (msg : String)
  | attr (missing : String)
  | nameE (missing : String)
  | numeric (msg : String)
deriving DecidableEq, Repr


/-- Exact rational scalars in normalized form.  All operations are plain
structural arithmetic on `Int`/`Nat` (normalization by `Nat.gcd`), so
every tensor computation in this development evaluates by `rfl`. -/
structure Frac where
  num : Int
  den : Nat
deriving DecidableEq, Repr

/-- Normalize a numerator/denominator pair (denominator 0 maps to 0,
matching the `x / 0 = 0` convention of Mathlib's rationals). -/
def Frac.norm (n : Int) (d : Nat) : Frac :=
  if d = 0 then ⟨0, 1⟩
  else
    let g := Nat.gcd n.natAbs d
    ⟨n / (g : Int), d / g⟩

instance : OfNat Frac k := ⟨⟨k, 1⟩⟩

/-- Embed a natural number. -/
def Frac.ofNat (n : Nat) : Frac := ⟨n, 1⟩

/-- Addition. -/
def Frac.add (a b : Frac) : Frac :=
  Frac.norm (a.num * (b.den : Int) + b.num * (a.den : Int)) (a.den * b.den)

instance : Add Frac := ⟨Frac.add⟩

/-- Negation (normal form is preserved). -/
def Frac.neg (a : Frac) : Frac := ⟨-a.num, a.den⟩

instance : Neg Frac := ⟨Frac.neg⟩

/-- Subtraction. -/
def Frac.sub (a b : Frac) : Frac := a + (-b)

instance : Sub Frac := ⟨Frac.sub⟩

/-- Multiplication. -/
def Frac.mul (a b : Frac) : Frac := Frac.norm (a.num * b.num) (a.den * b.den)

instance : Mul Frac := ⟨Frac.mul⟩

/-- Reciprocal (0 maps to 0). -/
def Frac.inv (a : Frac) : Frac :=
  if a.num = 0 then ⟨0, 1⟩
  else if a.num < 0 then ⟨-(a.den : Int), a.num.natAbs⟩
  else ⟨(a.den : Int), a.num.natAbs⟩

/-- Division. -/
def Frac.div (a b : Frac) : Frac := a * Frac.inv b

instance : Div Frac := ⟨Frac.div⟩

/-- Boolean order (denominators of constructed values are positive). -/
def Frac.ble (a b : Frac) : Bool := a.num * (b.den : Int) ≤ b.num * (a.den : Int)

instance : LE Frac := ⟨fun a b => Frac.ble a b = true⟩

instance : LT Frac := ⟨fun a b => Frac.ble b a = false⟩

instance (a b : Frac) : Decidable (a ≤ b) := by
  unfold LE.le instLEFrac; exact inferInstance

instance (a b : Frac) : Decidable (a < b) := by
  unfold LT.lt instLTFrac; exact inferInstance

/-- Maximum. -/
def Frac.fmax (a b : Frac) : Frac := if a ≤ b then b else a

instance : Zero Frac := ⟨⟨0, 1⟩⟩

/-- Parity sign (-1)^j. -/
def Frac.psign (j : Nat) : Frac := if j % 2 = 0 then ⟨1, 1⟩ else ⟨-1, 1⟩

/-- Sum of a list of scalars. -/
def fsum (l : List Frac) : Frac := l.foldr Frac.add 0

/-- A tensor: a shape together with row-major rational entries. -/
structure Tensor where
  shape : List Nat
  data : List Frac
deriving DecidableEq, Repr

/-- All multi-indices of a shape, in row-major order. -/
def allIdx : List Nat → List (List Nat)
  | [] => [[]]
  | n :: rest =>
      (List.range n).foldr (fun i acc => ((allIdx rest).map (fun idx => i :: idx)) ++ acc) []

/-- Row-major flattening of a multi-index. -/
def flatIdx (s idx : List Nat) : Nat :=
  (s.zip idx).foldl (fun acc p => acc * p.1 + p.2) 0

/-- Entry of a tensor at a multi-index (0 out of range). -/
def Tensor.entry (t : Tensor) (idx : List Nat) : Frac :=
  t.data.getD (flatIdx t.shape idx) 0

/-- Materialize a tensor from an entry function. -/
def Tensor.ofFn (s : List Nat) (f : List Nat → Frac) : Tensor :=
  ⟨s, (allIdx s).map f⟩

/-- Number of dimensions (`Tensor.dim()` in torch). -/
def Tensor.dim (t : Tensor) : Nat := t.shape.length

/-- Normalize a (possibly negative) dimension index against a rank,
as torch does; out-of-range is an error. -/
def normDim (r : Nat) (d : Int) : Option Nat :=
  let d' : Int := if d < 0 then d + r else d
  if 0 ≤ d' ∧ d' < r then some d'.toNat else none

/-- `Tensor.size(d)` with torch's negative-index convention. -/
def Tensor.size (t : Tensor) (d : Int) : Option Nat :=
  (normDim t.shape.length d).bind (fun k => t.shape[k]?)

/-- `Tensor.unsqueeze(d)`: insert a dimension of size one.  The row-major
data is unchanged. -/
def Tensor.unsqueeze (t : Tensor) (d : Int) : Option Tensor :=
  let r := t.shape.length
  let d' : Int := if d < 0 then d + r + 1 else d
  if 0 ≤ d' ∧ d' ≤ (r : Int) then
    some ⟨t.shape.take d'.toNat ++ 1 :: t.shape.drop d'.toNat, t.data⟩
  else none

/-- `Tensor.squeeze(-1)`: drop a trailing dimension when it is one. -/
def Tensor.squeezeLast (t : Tensor) : Tensor :=
  match t.shape.reverse with
  | 1 :: rb => ⟨rb.reverse, t.data⟩
  | _ => t

/-- Per-dimension admissibility of `expand`: a source dimension must be 1
or equal to the target. -/
def expandOkRec : List Nat → List Nat → Bool
  | [], [] => true
  | a :: as, b :: bs => (a == 1 || a == b) && expandOkRec as bs
  | _, _ => false

/-- Index back-translation for a broadcast source dimension. -/
def expIdx : List Nat → List Nat → List Nat
  | a :: as, i :: is => (if a = 1 then 0 else i) :: expIdx as is
  | _, _ => []

/-- `Tensor.expand(sizes)` (same-rank form, the only one the source uses). -/
def Tensor.expand (t : Tensor) (s : List Nat) : Option Tensor :=
  if expandOkRec t.shape s then
    some (Tensor.ofFn s (fun idx => t.entry (expIdx t.shape idx)))
  else none

/-- `Tensor.view(sizes)`: reinterpret the row-major data; the element
count must be preserved. -/
def Tensor.view (t : Tensor) (s : List Nat) : Option Tensor :=
  if s.prod = t.shape.prod then some ⟨s, t.data⟩ else none

/-- Guard for `torch.cat` along normalized axis `k`. -/
def catOk (sa sb : List Nat) (k : Nat) : Bool :=
  sa.length == sb.length && k < sa.length &&
    (List.range sa.length).all (fun i => i == k || sa.getD i 0 == sb.getD i 0)

/-- `torch.cat([a, b], dim=d)`. -/
def Tensor.cat (a b : Tensor) (d : Int) : Option Tensor :=
  (normDim a.shape.length d).bind (fun k =>
    if catOk a.shape b.shape k then
      let ad := a.shape.getD k 0
      let bd := b.shape.getD k 0
      some (Tensor.ofFn (a.shape.set k (ad + bd)) (fun idx =>
        let j := idx.getD k 0
        if j < ad then a.entry idx else b.entry (idx.set k (j - ad))))
    else none)

/-- Swap two positions of a list of naturals. -/
def natListSwap (l : List Nat) (i j : Nat) : List Nat :=
  (l.set i (l.getD j 0)).set j (l.getD i 0)

/-- `Tensor.transpose(a, b)`. -/
def Tensor.transpose (t : Tensor) (a b : Int) : Option Tensor :=
  (normDim t.shape.length a).bind (fun i =>
    (normDim t.shape.length b).bind (fun j =>
      some (Tensor.ofFn (natListSwap t.shape i j) (fun idx => t.entry (natListSwap idx i j)))))

/-- `Tensor.permute(p)` for a nonnegative permutation list. -/
def Tensor.permute (t : Tensor) (p : List Nat) : Option Tensor :=
  if p.length = t.shape.length ∧ (List.range t.shape.length).all (fun d => p.contains d) then
    some (Tensor.ofFn (p.map (fun d => t.shape.getD d 0))
      (fun idx => t.entry ((List.range t.shape.length).map
        (fun d => idx.getD (p.indexOf d) 0))))
  else none

/-- Python slicing `t[..., start:stop]` on the last dimension (with
Python's clamping semantics, so it never errors on sizes). `none` as stop
means "to the end". -/
def Tensor.slice1 (t : Tensor) (start : Nat) (stop : Option Nat) : Option Tensor :=
  match t.shape.reverse with
  | n :: rb =>
      let e := min (stop.getD n) n
      let s := min start n
      some (Tensor.ofFn ((e - s) :: rb).reverse (fun idx =>
        match idx.reverse with
        | i :: ri => t.entry ((i + s) :: ri).reverse
        | [] => 0))
  | [] => none

/-- Python slicing `t[..., r0:r1, c0:c1]` on the last two dimensions. -/
def Tensor.slice2 (t : Tensor) (r0 : Nat) (r1 : Option Nat) (c0 : Nat) (c1 : Option Nat) :
    Option Tensor :=
  match t.shape.reverse with
  | n :: m :: rb =>
      let ce := min (c1.getD n) n
      let cs := min c0 n
      let re := min (r1.getD m) m
      let rs := min r0 m
      some (Tensor.ofFn ((ce - cs) :: (re - rs) :: rb).reverse (fun idx =>
        match idx.reverse with
        | j :: i :: ri => t.entry ((j + cs) :: (i + rs) :: ri).reverse
        | _ => 0))
  | _ => none

/-- Modelled from the spec: the jitter value added to covariance diagonals
before factorization ("numerically-stabilized (jitter-added)
decomposition"); gpytorch's `add_jitter` default of 1e-3. -/
def jitterVal : Frac := ⟨1, 1000⟩

/-- `LazyTensor.add_jitter()`: add `jitterVal` on the diagonal of the
trailing two dimensions. -/
def Tensor.addJitter (t : Tensor) : Tensor :=
  Tensor.ofFn t.shape (fun idx =>
    match idx.reverse with
    | j :: i :: _ => t.entry idx + (if i = j then jitterVal else 0)
    | _ => t.entry idx)

/-- Batched diagonal `LazyTensor.diag()` of a square trailing block. -/
def Tensor.diag2 (t : Tensor) : Option Tensor :=
  match t.shape.reverse with
  | c :: r :: rb =>
      if r = c then
        some (Tensor.ofFn ((r :: rb).reverse) (fun idx =>
          match idx.reverse with
          | i :: ri => t.entry (i :: i :: ri).reverse
          | [] => 0))
      else none
  | _ => none

/-- `clamp_min`: entrywise maximum with a constant. -/
def Tensor.clampMin (t : Tensor) (q : Frac) : Tensor :=
  ⟨t.shape, t.data.map (fun x => Frac.fmax x q)⟩

/-- Split a shape into (batch, rows, cols); fails below rank 2. -/
def mat2 (s : List Nat) : Option (List Nat × Nat × Nat) :=
  match s.reverse with
  | c :: r :: b => some (b.reverse, r, c)
  | _ => none

/-- Numpy-style broadcasting of two reversed shape lists. -/
def bcastRev : List Nat → List Nat → Option (List Nat)
  | [], bs => some bs
  | a :: as, [] => (bcastRev as []).map (fun l => a :: l)
  | a :: as, b :: bs =>
      if a = b ∨ a = 1 ∨ b = 1 then (bcastRev as bs).map (fun l => max a b :: l)
      else none

/-- Numpy-style broadcast of two shapes (right-aligned). -/
def bcast2 (x y : List Nat) : Option (List Nat) :=
  (bcastRev x.reverse y.reverse).map List.reverse

/-- Project a broadcast multi-index back onto a source shape. -/
def projIdx (src idx : List Nat) : List Nat :=
  ((idx.drop (idx.length - src.length)).zip src).map (fun p => if p.2 = 1 then 0 else p.1)

/-- Batched, broadcasting `torch.matmul` (rank ≥ 2 operands, the only
form the source uses). -/
def Tensor.matmul (a b : Tensor) : Option Tensor :=
  (mat2 a.shape).bind (fun pa =>
    (mat2 b.shape).bind (fun pb =>
      if pb.2.1 = pa.2.2 then
        (bcast2 pa.1 pb.1).map (fun bs =>
          Tensor.ofFn (bs ++ [pa.2.1, pb.2.2]) (fun idx =>
            let bidx := idx.take bs.length
            let i := (idx.drop bs.length).getD 0 0
            let j := (idx.drop bs.length).getD 1 0
            fsum ((List.range pa.2.2).map (fun s =>
              a.entry (projIdx pa.1 bidx ++ [i, s]) *
                b.entry (projIdx pb.1 bidx ++ [s, j])))))
      else none))

/-- Broadcasting elementwise subtraction. -/
def Tensor.sub (a b : Tensor) : Option Tensor :=
  (bcast2 a.shape b.shape).map (fun s =>
    Tensor.ofFn s (fun idx =>
      a.entry (projIdx a.shape idx) - b.entry (projIdx b.shape idx)))

/-- Remove column `j` from a row. -/
def dropCol (j : Nat) (row : List Frac) : List Frac := row.take j ++ row.drop (j + 1)

/-- Remove column `j` from every row. -/
def minorCols (j : Nat) (rows : List (List Frac)) : List (List Frac) := rows.map (dropCol j)

/-- Determinant by first-row Laplace expansion (fuelled by row count). -/
def detFuel : Nat → List (List Frac) → Frac
  | 0, _ => 1
  | _ + 1, [] => 1
  | n + 1, r :: rest =>
      fsum ((List.range r.length).map (fun j =>
        Frac.psign j * r.getD j 0 * detFuel n (minorCols j rest)))

/-- Determinant of a rational matrix given as rows. -/
def det (m : List (List Frac)) : Frac := detFuel m.length m

/-- Replace column `i` of a matrix by a vector (for Cramer's rule). -/
def replaceCol (i : Nat) (b : List Frac) (a : List (List Frac)) : List (List Frac) :=
  a.zipWith (fun row bv => row.set i bv) b

/-- Extract the `r × c` matrix at batch index `bidx` of a tensor. -/
def matAt (t : Tensor) (bidx : List Nat) (r c : Nat) : List (List Frac) :=
  (List.range r).map (fun i => (List.range c).map (fun j => t.entry (bidx ++ [i, j])))

/-- Every batch matrix of `K` is square with nonzero determinant.
Modelled from the spec: this is the condition under which the
jitter-stabilized factorization of the lazy-tensor library supports
inverse-multiply and inverse-quadratic-form solves. -/
def invertibleBatch (K : Tensor) : Bool :=
  match mat2 K.shape with
  | some (bk, r, c) =>
      r == c && (allIdx bk).all (fun bi => decide (det (matAt K bi r r) ≠ 0))
  | none => false

/-- Modelled from the spec: `LazyTensor.inv_matmul` / solving
`K⁻¹ B` through the factorization (exact Cramer solves per batch,
broadcasting batch dimensions like torch). -/
def solveBatched (K B : Tensor) : Option Tensor :=
  (mat2 K.shape).bind (fun pk =>
    (mat2 B.shape).bind (fun pb =>
      if (pk.2.2 = pk.2.1 ∧ pb.2.1 = pk.2.1) ∧ invertibleBatch K = true then
        (bcast2 pk.1 pb.1).map (fun bs =>
          Tensor.ofFn (bs ++ [pk.2.1, pb.2.2]) (fun idx =>
            let bidx := idx.take bs.length
            let i := (idx.drop bs.length).getD 0 0
            let j := (idx.drop bs.length).getD 1 0
            let A := matAt K (projIdx pk.1 bidx) pk.2.1 pk.2.1
            let bcol := (List.range pk.2.1).map (fun s =>
              B.entry (projIdx pb.1 bidx ++ [s, j]))
            det (replaceCol i bcol A) / det A))
      else none))

/-- Modelled from the spec: `LazyTensor.inv_quad(A, reduce_inv_quad=False)`,
the diagonal of `Aᵀ K⁻¹ A` per batch. -/
def invQuad (K A : Tensor) : Option Tensor :=
  (mat2 K.shape).bind (fun pk =>
    (mat2 A.shape).bind (fun pa =>
      if (pk.2.2 = pk.2.1 ∧ pa.2.1 = pk.2.1) ∧ invertibleBatch K = true then
        (bcast2 pk.1 pa.1).map (fun bs =>
          Tensor.ofFn (bs ++ [pa.2.2]) (fun idx =>
            let bidx := idx.take bs.length
            let j := (idx.drop bs.length).getD 0 0
            let M := matAt K (projIdx pk.1 bidx) pk.2.1 pk.2.1
            let acol := (List.range pk.2.1).map (fun s =>
              A.entry (projIdx pa.1 bidx ++ [s, j]))
            fsum ((List.range pk.2.1).map (fun i =>
              acol.getD i 0 * (det (replaceCol i acol M) / det M)))))
      else none))

/-- Covariance representation of a Gaussian produced by the layer:
either a dense matrix (the prior over inducing values) or the diagonal
`DiagLazyTensor` of the predictive distribution. -/
inductive Cov where
  | dense (t : Tensor)
  | diagonal (t : Tensor)
deriving DecidableEq, Repr

/-- A (multivariate) Gaussian as the source manipulates it: a mean tensor
plus a covariance. -/
structure GaussDist where
  mean : Tensor
  cov : Cov
deriving DecidableEq, Repr

/-- Rational stand-in for the square root used by a Gaussian sampler. -/
def ratSqrt (q : Frac) : Frac := Frac.norm (Int.sqrt q.num) (Nat.sqrt q.den)

/-- Modelled from the spec: `rsample(sample_shape)` of the
diagonal-covariance predictive Gaussian ("draw one Monte Carlo sample
from the predictive distribution").  `eps` is the underlying
standard-normal draw, supplied explicitly; the result shape is
`sample_shape ++ broadcast(mean, variance)` as in torch. -/
def GaussDist.rsample (d : GaussDist) (sShape : List Nat) (eps : Tensor) : Option Tensor :=
  match d.cov with
  | Cov.dense _ => none
  | Cov.diagonal v =>
      (bcast2 d.mean.shape v.shape).bind (fun bs =>
        let out := sShape ++ bs
        if eps.shape = out then
          some (Tensor.ofFn out (fun idx =>
            let bidx := idx.drop sShape.length
            d.mean.entry (projIdx d.mean.shape bidx) +
              ratSqrt (v.entry (projIdx v.shape bidx)) * eps.entry idx))
        else none)

/-- The likelihood collaborator (spec section 6): exposes
`expected_log_prob(target, function_dist)`. -/
structure Likelihood where
  expected_log_prob : Tensor → GaussDist → Tensor

/-- `QuadratureDist` (source lines 6-15): a thin adapter wrapping a
likelihood and a Gaussian function distribution. -/
structure QuadratureDist where
  likelihood : Likelihood
  function_dist : GaussDist

/-- `QuadratureDist.log_prob(target)` (source lines 11-12). -/
def QuadratureDist.log_prob (q : QuadratureDist) (target : Tensor) : Tensor :=
  q.likelihood.expected_log_prob target q.function_dist

/-- `QuadratureDist.sample(sample_shape)` (source lines 14-15): the body
is `pass`, i.e. Python returns `None` — no sample is produced. -/
def QuadratureDist.sample (_q : QuadratureDist) (_sample_shape : List Nat) : Option Tensor :=
  none

/-- The module-level names bound when `pyro_deep_gp.py` is executed
(imports and the classes it defines). -/
def moduleGlobals : List String :=
  ["torch", "pyro", "AbstractVariationalGP", "QuadratureDist",
   "AbstractPyroHiddenGPLayer", "AbstractPyroDeepGP"]

/-- Python name resolution: a bare name resolves iff it is a local of the
current function or a module global. -/
def resolves (n : String) (locals : List String) : Bool :=
  locals.contains n || moduleGlobals.contains n

/-- First name of `refs` (in evaluation order) that does not resolve. -/
def undefinedRef? (refs locals : List String) : Option String :=
  refs.find? (fun n => !(resolves n locals))

/-- One parameter of a Python `def`: its name and whether it has a
default value. -/
structure PyParam where
  pname : String
  hasDefault : Bool
deriving DecidableEq, Repr

/-- Python's syntactic rule for parameter lists: once a parameter has a
default, every later (non-star) parameter must also have one; otherwise
the `def` is a SyntaxError and the module cannot be compiled. -/
def pyParamsOk : List PyParam → Bool
  | [] => true
  | p :: rest => if p.hasDefault then rest.all (fun q => q.hasDefault) else pyParamsOk rest

/-- Parameter list of `AbstractPyroDeepGP.__init__` (source lines 164-172):
the non-default `hidden_gp_layers` follows the defaulted `name_prefix`. -/
def deepGPInitParams : List PyParam :=
  [⟨"self", false⟩, ⟨"variational_strategy", false⟩, ⟨"input_dims", false⟩,
   ⟨"output_dims", false⟩, ⟨"total_num_data", false⟩, ⟨"name_prefix", true⟩,
   ⟨"hidden_gp_layers", false⟩]

/-- Parameter lists of every `def` in `pyro_deep_gp.py`, in source order. -/
def pyModuleDefs : List (List PyParam) :=
  [ [⟨"self", false⟩, ⟨"likelihood", false⟩, ⟨"function_dist", false⟩],
    [⟨"self", false⟩, ⟨"target", false⟩],
    [⟨"self", false⟩, ⟨"sample_shape", true⟩],
    [⟨"self", false⟩, ⟨"variational_strategy", false⟩, ⟨"input_dims", false⟩,
     ⟨"output_dims", false⟩, ⟨"name_prefix", true⟩],
    [⟨"self", false⟩],
    [⟨"self", false⟩],
    [⟨"self", false⟩, ⟨"inputs", false⟩, ⟨"return_samples", true⟩],
    [⟨"self", false⟩, ⟨"inputs", false⟩],
    deepGPInitParams,
    [⟨"self", false⟩, ⟨"inputs", false⟩, ⟨"outputs", false⟩],
    [⟨"self", false⟩, ⟨"inputs", false⟩, ⟨"outputs", false⟩] ]

/-- The module compiles only if every `def` has a legal parameter list. -/
def pyModuleLoads : Bool := pyModuleDefs.all pyParamsOk

/-- State of an `AbstractPyroHiddenGPLayer` object.  `namePfx` is the
`name_prefix` *attribute* (`none` when the attribute was never assigned);
`forward` is the abstract GP-prior evaluator collaborator (spec section 6)
returning a joint mean and covariance; `inducing_points` stands for
`variational_strategy.inducing_points`. -/
structure GPLayer where
  inducing_points : Tensor
  input_dims : Nat
  output_dims : Nat
  output_dim_plate : String × Nat
  namePfx : Option String
  forward : Tensor → Option (Tensor × Tensor)

/-- `AbstractPyroHiddenGPLayer.__init__` (source lines 19-23): stores
`input_dims`, `output_dims` and `output_dim_plate` (whose name uses the
`name_prefix` *parameter*), but never assigns `self.name_prefix`, so the
attribute stays absent (`none`). -/
def hiddenInit (inducing : Tensor) (input_dims output_dims : Nat) (np : String)
    (fwd : Tensor → Option (Tensor × Tensor)) : GPLayer :=
  ⟨inducing, input_dims, output_dims, (np ++ ".n_output_plate", output_dims), none, fwd⟩

/-- Lift a fallible torch operation into the Python execution monad. -/
def liftO (x : Option α) (e : PyErr) : Except PyErr α :=
  match x with
  | some a => Except.ok a
  | none => Except.error e

/-- Intermediate state of `model` after source lines 34-85 (input
normalization, joint prior evaluation and block extraction). -/
structure PreOut where
  num_induc : Nat
  minibatch : Nat
  num_samples : Option Nat
  induc_mean : Tensor
  test_mean : Tensor
  induc_induc : Tensor
  induc_data : Tensor
  data_data : Tensor
deriving DecidableEq, Repr

/-- Source lines 34-85 of `AbstractPyroHiddenGPLayer.model`: shape
normalization of the inputs, concatenation with the inducing points,
joint prior evaluation, and extraction of the mean and covariance blocks
(with jitter on the inducing block; the Cholesky wrapper of line 75 is
represented by keeping the jittered matrix, which the solve operations
factor exactly). -/
def modelPre (L : GPLayer) (inputs0 : Tensor) : Except PyErr PreOut := do
  let inducing_points := L.inducing_points
  let num_induc ← liftO (inducing_points.size (-2)) (PyErr.shape "inducing size")
  let minibatch ← liftO (inputs0.size (-2)) (PyErr.shape "input size")
  let inputs1 ←
    if inputs0.dim = 2 then do
      let t ← liftO (inputs0.unsqueeze 0) (PyErr.shape "unsqueeze")
      let n ← liftO (t.size (-2)) (PyErr.shape "size")
      liftO (t.expand [L.output_dims, n, L.input_dims]) (PyErr.shape "expand")
    else if inputs0.dim = 3 then do
      let t ← liftO (inputs0.unsqueeze 0) (PyErr.shape "unsqueeze")
      let p ← liftO (t.size 1) (PyErr.shape "size")
      let n ← liftO (t.size (-2)) (PyErr.shape "size")
      liftO (t.expand [L.output_dims, p, n, L.input_dims]) (PyErr.shape "expand")
    else pure inputs0
  let st ←
    if inputs1.dim = 4 then do
      let p ← liftO (inputs1.size (-3)) (PyErr.shape "size")
      let a ← liftO (inputs1.size (-2)) (PyErr.shape "size")
      let v ← liftO (inputs1.view [L.output_dims, a * p, L.input_dims]) (PyErr.shape "view")
      pure (v, some p)
    else pure (inputs1, (none : Option Nat))
  let full_inputs ← liftO (Tensor.cat inducing_points st.1 (-2)) (PyErr.shape "cat")
  let fo ← liftO (L.forward full_inputs) (PyErr.numeric "forward")
  let induc_mean ← liftO (fo.1.slice1 0 (some num_induc)) (PyErr.shape "slice")
  let test_mean ← liftO (fo.1.slice1 num_induc none) (PyErr.shape "slice")
  let iiRaw ← liftO (fo.2.slice2 0 (some num_induc) 0 (some num_induc)) (PyErr.shape "slice")
  let induc_induc := iiRaw.addJitter
  let induc_data ← liftO (fo.2.slice2 0 (some num_induc) num_induc none) (PyErr.shape "slice")
  let data_data ← liftO (fo.2.slice2 num_induc none num_induc none) (PyErr.shape "slice")
  pure ⟨num_induc, minibatch, st.2, induc_mean, test_mean, induc_induc, induc_data, data_data⟩

/-- Intermediate state of `model` after source lines 85-141. -/
structure MidOut where
  solve_result : Tensor
  means : Tensor
  rawVar : Tensor
  p_f_dist : GaussDist
deriving DecidableEq, Repr

/-- Source lines 85-141 of `AbstractPyroHiddenGPLayer.model`: the prior
sample over inducing values (its drawn value is the parameter `u`; naming
the sample site reads the absent `self.name_prefix` attribute first), the
inducing solve, the per-branch reshaping, the predictive mean, and the
clamped diagonal variance. -/
def modelMid (L : GPLayer) (pre : PreOut) (u : Tensor) : Except PyErr MidOut := do
  let _prior : GaussDist := ⟨pre.induc_mean, Cov.dense pre.induc_induc⟩
  let _siteName ←
    (match L.namePfx with
     | some s => Except.ok (s ++ ".inducing_values")
     | none => Except.error (PyErr.attr "name_prefix"))
  let p_u_samples := u
  let u1 ← liftO (p_u_samples.unsqueeze (-1)) (PyErr.shape "unsqueeze")
  let sr ← liftO (solveBatched pre.induc_induc u1) (PyErr.numeric "inv_matmul")
  let solve_result := sr.squeezeLast
  let bd ←
    (match pre.num_samples with
     | some p => do
        let v ← liftO (pre.induc_data.view
          [L.output_dims, pre.num_induc, p, pre.minibatch]) (PyErr.shape "view")
        let pm ← liftO (v.permute [2, 0, 3, 1]) (PyErr.shape "permute")
        let dd ← liftO pre.data_data.diag2 (PyErr.shape "diag")
        let s0 ← liftO (solve_result.size 0) (PyErr.shape "size")
        let dd1 ← liftO (dd.view [L.output_dims, s0, pre.minibatch]) (PyErr.shape "view")
        let dd2 ← liftO (dd1.transpose (-3) (-2)) (PyErr.shape "transpose")
        pure (pm, dd2)
     | none => do
        let dd ← liftO pre.data_data.diag2 (PyErr.shape "diag")
        pure (pre.induc_data, dd))
  let idT ← liftO (bd.1.transpose (-2) (-1)) (PyErr.shape "transpose")
  let s1 ← liftO (solve_result.unsqueeze (-1)) (PyErr.shape "unsqueeze")
  let mm ← liftO (idT.matmul s1) (PyErr.shape "matmul")
  let means := mm.squeezeLast
  let diag_correction ← liftO (invQuad pre.induc_induc bd.1) (PyErr.numeric "inv_quad")
  let rawVar ← liftO (bd.2.sub diag_correction) (PyErr.shape "sub")
  let variances := rawVar.clampMin 0
  pure ⟨solve_result, means, rawVar, ⟨means, Cov.diagonal variances⟩⟩

/-- Result of `AbstractPyroHiddenGPLayer.model`: a predictive
distribution or a sample tensor, depending on `return_samples`. -/
inductive ModelResult where
  | dist (d : GaussDist)
  | samples (t : Tensor)
deriving DecidableEq, Repr

/-- `AbstractPyroHiddenGPLayer.model` (source lines 34-156).  `u` is the
value drawn at the `pyro.sample` site for the inducing values; `eps` is
the standard-normal draw behind `rsample`. -/
def hiddenModel (L : GPLayer) (inputs : Tensor) (return_samples : Bool)
    (u eps : Tensor) : Except PyErr ModelResult := do
  let pre ← modelPre L inputs
  let mid ← modelMid L pre u
  if return_samples then
    match pre.num_samples with
    | some _ => do
        let s ← liftO (mid.p_f_dist.rsample [] eps) (PyErr.shape "rsample")
        let st ← liftO (s.transpose (-2) (-1)) (PyErr.shape "transpose")
        pure (ModelResult.samples st)
    | none => do
        let q ← liftO (u.size (-3)) (PyErr.shape "size")
        let s ← liftO (mid.p_f_dist.rsample [q] eps) (PyErr.shape "rsample")
        let st ← liftO (s.transpose (-2) (-1)) (PyErr.shape "transpose")
        pure (ModelResult.samples st)
  else
    pure (ModelResult.dist mid.p_f_dist)

/-- Locals of `AbstractPyroHiddenGPLayer.guide` (source lines 29-32). -/
def guideLocals : List String := ["self", "q_u_samples"]

/-- `AbstractPyroHiddenGPLayer.guide` (source lines 29-32): the sample
site name is `name_prefix + ".inducing_values"` with a *bare* name
`name_prefix`, which is neither a local nor a module global; evaluating
the first argument of `pyro.sample` raises NameError before any sampling.
`q` is the value the variational sample site would produce. -/
def hiddenGuide (_L : GPLayer) (q : Tensor) : Except PyErr Tensor :=
  match undefinedRef? ["pyro", "name_prefix", "self"] guideLocals with
  | some n => Except.error (PyErr.nameE n)
  | none => Except.ok q

/-- State of an `AbstractPyroDeepGP` object: the terminal layer's own
state (it inherits the layer machinery), the total dataset size, the
likelihood collaborator (assigned by concrete subclasses; spec section 6),
and the list of hidden layers.  Its `__init__` as written is a
SyntaxError (see `deepGPInitParams`), so objects of this shape can only
be described, never constructed by the module. -/
structure DeepGP where
  toLayer : GPLayer
  total_num_data : Nat
  likelihood : Likelihood
  hidden_gp_layers : List GPLayer

/-- The for-loop of `AbstractPyroDeepGP.model` (source lines 191-192):
feed the running tensor through each hidden layer's `model` with the
default `return_samples=True`, consuming one (inducing-draw, rsample-draw)
pair per layer. -/
def deepHiddenPass : List GPLayer → Tensor → List (Tensor × Tensor) → Except PyErr Tensor
  | [], x, _ => Except.ok x
  | L :: rest, x, draws =>
      match draws with
      | [] => Except.error (PyErr.numeric "missing draw")
      | de :: ds =>
          match hiddenModel L x true de.1 de.2 with
          | Except.ok (ModelResult.samples t) => deepHiddenPass rest t ds
          | Except.ok (ModelResult.dist _) => Except.error (PyErr.numeric "unexpected dist")
          | Except.error e => Except.error e

/-- The observation-scoring context of source lines 197-198: the
minibatch plate (`dim=-1`) and the `poutine.scale` factor
`float(total_num_data / minibatch_size)`. -/
structure ObsCtx where
  plateName : String
  plateSize : Nat
  plateDim : Int
  scale : Frac
deriving DecidableEq, Repr

/-- The plate and scale expressions of source lines 197-198. -/
def deepObsCtx (np : String) (total mb : Nat) : ObsCtx :=
  ⟨np ++ ".data_plate", mb, -1, Frac.ofNat total / Frac.ofNat mb⟩

/-- The observation sample-site record lines 199-200 try to build. -/
structure Obs where
  site : String
  ctx : ObsCtx
  out_dist : QuadratureDist
  observed : Tensor

/-- Locals of `AbstractPyroDeepGP.model` (parameters plus every name the
method body assigns); `f_samples` and `output` are not among them. -/
def deepModelLocals : List String :=
  ["self", "inputs", "outputs", "hidden_gp_layer", "p_f_dist", "minibatch_size", "out_dist"]

/-- Source lines 197-200 of `AbstractPyroDeepGP.model`: enter the data
plate (whose name reads `self.name_prefix`, an attribute `__init__` never
assigns), compute the scale factor, then build
`QuadratureDist(self.likelihood, f_samples)` — whose argument list
resolves the bare name `f_samples` against the method scope and raises
NameError, so the observation is never scored. -/
def deepObsStep (G : DeepGP) (outputs : Tensor) (pf : GaussDist) (mb : Nat) :
    Except PyErr Obs := do
  let np ←
    (match G.toLayer.namePfx with
     | some s => Except.ok s
     | none => Except.error (PyErr.attr "name_prefix"))
  if mb = 0 then
    Except.error (PyErr.numeric "division by zero")
  else
    let _ctx := deepObsCtx np G.total_num_data mb
    match undefinedRef? ["QuadratureDist", "self", "f_samples"] deepModelLocals with
    | some n => Except.error (PyErr.nameE n)
    | none =>
        -- `f_samples` is unbound in the method scope (see `deepModelLocals`),
        -- so this branch is unreachable: no observation record exists.
        Except.error (PyErr.nameE "f_samples")

/-- Source lines 194-200: terminal predictive distribution
(`return_samples=False`), minibatch size, then the observation step. -/
def deepModelTail (G : DeepGP) (outputs x : Tensor) (uT eT : Tensor) : Except PyErr Obs := do
  let r ← hiddenModel G.toLayer x false uT eT
  let pf ←
    (match r with
     | ModelResult.dist d => Except.ok d
     | ModelResult.samples _ => Except.error (PyErr.numeric "unexpected samples"))
  let mb ← liftO (x.size (-2)) (PyErr.shape "size")
  deepObsStep G outputs pf mb

/-- `AbstractPyroDeepGP.model(inputs, outputs)` (source lines 189-200).
`draws` supplies each hidden layer's random draws, `uT`/`eT` the terminal
layer's. -/
def deepModel (G : DeepGP) (inputs outputs : Tensor) (draws : List (Tensor × Tensor))
    (uT eT : Tensor) : Except PyErr Obs := do
  let x ← deepHiddenPass G.hidden_gp_layers inputs draws
  deepModelTail G outputs x uT eT

/-- Empty tensor used as a fallback/placeholder. -/
def t0 : Tensor := ⟨[], []⟩

/-- Fallback Gaussian for extractor definitions. -/
def gdFallback : GaussDist := ⟨t0, Cov.diagonal t0⟩

/-- Fallback `PreOut` for extractor definitions. -/
def preFallback : PreOut := ⟨0, 0, none, t0, t0, t0, t0, t0⟩

/-- Fallback `MidOut` for extractor definitions. -/
def midFallback : MidOut := ⟨t0, t0, t0, gdFallback⟩

/-- Concrete inducing points: one inducing point (m = 1) in one input
dimension, for a layer with one output channel. -/
def ipC : Tensor := ⟨[1, 1, 1], [0]⟩

/-- Concrete joint prior mean over 1 + 2 points. -/
def meanC3pt : Tensor := ⟨[1, 3], [0, 0, 0]⟩

/-- Concrete joint prior covariance over 1 + 2 points (identity). -/
def covC3pt : Tensor := ⟨[1, 3, 3], [1, 0, 0, 0, 1, 0, 0, 0, 1]⟩

/-- Concrete GP-prior evaluator for `ipC` with two data points. -/
def forwardC (t : Tensor) : Option (Tensor × Tensor) :=
  if t.shape = [1, 3, 1] then some (meanC3pt, covC3pt) else none

/-- Concrete hidden layer (O_{i-1} = 1, O_i = 1, m = 1) whose
`name_prefix` attribute is present, isolating the tensor pipeline from
the attribute bug analysed separately. -/
def Lc1 : GPLayer := ⟨ipC, 1, 1, ("h1.n_output_plate", 1), some "h1", forwardC⟩

/-- The same layer as produced by `__init__`: `name_prefix` absent. -/
def Lc9 : GPLayer := ⟨ipC, 1, 1, ("h1.n_output_plate", 1), none, forwardC⟩

/-- Concrete 2D input batch: n = 2 points of dimension 1. -/
def xc1 : Tensor := ⟨[2, 1], [0, 1]⟩

/-- Concrete inducing-values draw of the pyro-generative shape (O, m). -/
def uc1 : Tensor := ⟨[1, 1], [1]⟩

/-- Concrete inducing-values draw carrying one replicate dimension
(p = 1), the shape the source's comments assume. -/
def uc2 : Tensor := ⟨[1, 1, 1], [1]⟩

/-- Standard-normal draw matching the rsample output shape of the
2D-input sampling branch. -/
def ec2 : Tensor := ⟨[1, 1, 1, 2], [0, 0]⟩

/-- Concrete 3D input batch: p = 1 upstream samples, n = 2 points. -/
def xc2c : Tensor := ⟨[1, 2, 1], [0, 1]⟩

/-- Predictive distribution returned by the concrete 2D
`return_samples=False` call. -/
def distC1 : GaussDist :=
  match hiddenModel Lc1 xc1 false uc1 t0 with
  | Except.ok (ModelResult.dist d) => d
  | _ => gdFallback

/-- Sample tensor returned by the concrete 2D `return_samples=True` call. -/
def sampC2 : Tensor :=
  match hiddenModel Lc1 xc1 true uc2 ec2 with
  | Except.ok (ModelResult.samples t) => t
  | _ => t0

/-- Concrete joint prior mean over 1 + 1 points (variance-clamp case). -/
def meanC2pt : Tensor := ⟨[1, 2], [0, 0]⟩

/-- Concrete joint prior covariance over 1 + 1 points whose data-data
entry (1/4) is smaller than the conditioning correction, so the raw
predictive variance is negative. -/
def covC2pt : Tensor := ⟨[1, 2, 2], [1, 1, 1, ⟨1, 4⟩]⟩

/-- Concrete GP-prior evaluator for the variance-clamp case. -/
def forwardC3 (t : Tensor) : Option (Tensor × Tensor) :=
  if t.shape = [1, 2, 1] then some (meanC2pt, covC2pt) else none

/-- Concrete layer for the variance-clamp case. -/
def Lc3 : GPLayer := ⟨ipC, 1, 1, ("h3.n_output_plate", 1), some "h3", forwardC3⟩

/-- Concrete 2D input batch with a single point. -/
def xc3 : Tensor := ⟨[1, 1], [2]⟩

/-- `modelPre` output of the variance-clamp case. -/
def preC3 : PreOut :=
  match modelPre Lc3 xc3 with
  | Except.ok p => p
  | _ => preFallback

/-- `modelMid` output of the variance-clamp case. -/
def midC3 : MidOut :=
  match modelMid Lc3 preC3 uc1 with
  | Except.ok m => m
  | _ => midFallback

/-- `modelPre` output of the 2D shape scenario. -/
def preC1 : PreOut :=
  match modelPre Lc1 xc1 with
  | Except.ok p => p
  | _ => preFallback

/-- Identity-covariance GP-prior evaluator over 1 + 10 points, used by
the deep-GP observation scenario. -/
def forwardG (t : Tensor) : Option (Tensor × Tensor) :=
  if t.shape = [1, 11, 1] then
    some (Tensor.ofFn [1, 11] (fun _ => 0),
      Tensor.ofFn [1, 11, 11] (fun idx =>
        match idx with
        | [_, i, j] => if i = j then 1 else 0
        | _ => 0))
  else none

/-- Terminal layer of the deep-GP observation scenario. -/
def Lg : GPLayer := ⟨ipC, 1, 1, ("gp.n_output_plate", 1), some "gp", forwardG⟩

/-- A concrete likelihood collaborator. -/
def likC : Likelihood := ⟨fun t _ => t⟩

/-- Deep GP of the observation scenario: no hidden layers,
`total_num_data = 1000`, minibatch will be 10. -/
def G4 : DeepGP := ⟨Lg, 1000, likC, []⟩

/-- Minibatch of 10 one-dimensional inputs. -/
def x4 : Tensor := ⟨[10, 1], [0, 0, 0, 0, 0, 0, 0, 0, 0, 0]⟩

/-- Observed outputs for the scenario. -/
def y4 : Tensor := ⟨[10, 1], [0, 0, 0, 0, 0, 0, 0, 0, 0, 0]⟩

/-- Deep GP with one hidden layer, for the composition claim. -/
def Gc5 : DeepGP := ⟨Lc1, 100, likC, [Lc1]⟩

theorem liftO_some (a : α) (e : PyErr) : liftO (some a) e = Except.ok a := rfl

theorem liftO_none (e : PyErr) : liftO (none : Option α) e = Except.error e := rfl

theorem fmax_nonneg (x : Frac) : 0 ≤ Frac.fmax x 0 := by
  unfold Frac.fmax
  by_cases h : x ≤ 0
  · simp [h]; decide
  · simp [h]
    change Frac.ble 0 x = true
    have h2 : ¬ (Frac.ble x 0 = true) := h
    simp [Frac.ble] at h2 ⊢
    omega

theorem fmax_zero_of_neg (x : Frac) (h : x < 0) : Frac.fmax x 0 = 0 := by
  unfold Frac.fmax
  change Frac.ble 0 x = false at h
  have : Frac.ble x 0 = true := by
    simp [Frac.ble] at h ⊢; omega
  simp [LE.le, this]

theorem clampMin_data (t : Tensor) :
    (t.clampMin 0).data = t.data.map (fun x => Frac.fmax x 0) := rfl

theorem clampMin_shape (t : Tensor) (q : Frac) : (t.clampMin q).shape = t.shape := rfl

theorem clampMin_nonneg (t : Tensor) : ∀ x ∈ (t.clampMin 0).data, 0 ≤ x := by
  intro x hx
  rw [clampMin_data] at hx
  obtain ⟨y, _, rfl⟩ := List.mem_map.mp hx
  exact fmax_nonneg y

theorem getD_map_fmax (l : List Frac) (k : Nat) :
    (l.map (fun x => Frac.fmax x 0)).getD k 0 = Frac.fmax (l.getD k 0) 0 := by
  induction l generalizing k with
  | nil => simp; decide
  | cons a as ih =>
      cases k with
      | zero => simp
      | succ k => simpa using ih k

theorem clampMin_getD (t : Tensor) (k : Nat) :
    (t.clampMin 0).data.getD k 0 = Frac.fmax (t.data.getD k 0) 0 := by
  rw [clampMin_data]
  exact getD_map_fmax t.data k

theorem bcastRev_self (l : List Nat) : bcastRev l l = some l := by
  induction l with
  | nil => rfl
  | cons a as ih => simp [bcastRev, ih]

theorem bcast2_self (s : List Nat) : bcast2 s s = some s := by
  simp [bcast2, bcastRev_self]

theorem ofFn_shape (s : List Nat) (f : List Nat → Frac) : (Tensor.ofFn s f).shape = s := rfl

theorem addJitter_shape (t : Tensor) : t.addJitter.shape = t.shape := rfl

theorem size2_neg2 (t : Tensor) (a b : Nat) (h : t.shape = [a, b]) :
    t.size (-2) = some a := by
  simp [Tensor.size, h]
  rfl

theorem size3_neg2 (t : Tensor) (a b c : Nat) (h : t.shape = [a, b, c]) :
    t.size (-2) = some b := by
  simp [Tensor.size, h]
  rfl

theorem shapeMap_some {x : Option Tensor} {s : List Nat}
    (h : x.map Tensor.shape = some s) : ∃ r, x = some r ∧ r.shape = s := by
  cases x with
  | none => simp at h
  | some r => exact ⟨r, rfl, by simpa using h⟩

theorem unsq0_2 (t : Tensor) (a b : Nat) (h : t.shape = [a, b]) :
    t.unsqueeze 0 = some ⟨[1, a, b], t.data⟩ := by
  simp [Tensor.unsqueeze, h]

theorem unsq_last (t : Tensor) : t.unsqueeze (-1) = some ⟨t.shape ++ [1], t.data⟩ := by
  simp [Tensor.unsqueeze]

theorem squeezeLast_app (s : List Nat) (d : List Frac) :
    (Tensor.mk (s ++ [1]) d).squeezeLast = ⟨s, d⟩ := by
  simp [Tensor.squeezeLast]

theorem expand_13 (t : Tensor) (a b c : Nat) (h : t.shape = [1, a, b]) :
    (t.expand [c, a, b]).map Tensor.shape = some [c, a, b] := by
  simp [Tensor.expand, h, expandOkRec, Tensor.ofFn]

theorem cat_n2_3 (a b : Tensor) (o m n d : Nat)
    (ha : a.shape = [o, m, d]) (hb : b.shape = [o, n, d]) :
    (Tensor.cat a b (-2)).map Tensor.shape = some [o, m + n, d] := by
  have hco : catOk [o, m, d] [o, n, d] 1 = true := by
    simp [catOk, List.range_succ]
  have hnd : normDim 3 (-2) = some 1 := by decide
  simp [Tensor.cat, hnd, hco, ha, hb, Tensor.ofFn]

theorem slice1_to (t : Tensor) (o N m : Nat) (h : t.shape = [o, N]) (hm : m ≤ N) :
    (t.slice1 0 (some m)).map Tensor.shape = some [o, m] := by
  simp [Tensor.slice1, h, Tensor.ofFn]
  omega

theorem slice1_from (t : Tensor) (o N m : Nat) (h : t.shape = [o, N]) :
    (t.slice1 m none).map Tensor.shape = some [o, N - m] := by
  simp [Tensor.slice1, h, Tensor.ofFn]
  omega

theorem slice2_tt (t : Tensor) (o N m : Nat) (h : t.shape = [o, N, N]) (hm : m ≤ N) :
    (t.slice2 0 (some m) 0 (some m)).map Tensor.shape = some [o, m, m] := by
  simp [Tensor.slice2, h, Tensor.ofFn]
  omega

theorem slice2_tf (t : Tensor) (o N m : Nat) (h : t.shape = [o, N, N]) (hm : m ≤ N) :
    (t.slice2 0 (some m) m none).map Tensor.shape = some [o, m, N - m] := by
  simp [Tensor.slice2, h, Tensor.ofFn]
  omega

theorem slice2_ff (t : Tensor) (o N m : Nat) (h : t.shape = [o, N, N]) :
    (t.slice2 m none m none).map Tensor.shape = some [o, N - m, N - m] := by
  simp [Tensor.slice2, h, Tensor.ofFn]
  omega

theorem diag2_3 (t : Tensor) (o n : Nat) (h : t.shape = [o, n, n]) :
    t.diag2.map Tensor.shape = some [o, n] := by
  simp [Tensor.diag2, h, Tensor.ofFn]

theorem transpose_last2_3 (t : Tensor) (o a b : Nat) (h : t.shape = [o, a, b]) :
    (t.transpose (-2) (-1)).map Tensor.shape = some [o, b, a] := by
  have h1 : normDim 3 (-2) = some 1 := by decide
  have h2 : normDim 3 (-1) = some 2 := by decide
  simp [Tensor.transpose, h1, h2, Tensor.ofFn, natListSwap, h]

theorem matmul_33 (a b : Tensor) (o r1 k c : Nat)
    (ha : a.shape = [o, r1, k]) (hb : b.shape = [o, k, c]) :
    (a.matmul b).map Tensor.shape = some [o, r1, c] := by
  simp [Tensor.matmul, ha, hb, mat2, bcast2, bcastRev_self, Tensor.ofFn]

theorem solve_31 (K B : Tensor) (o m c : Nat)
    (hK : K.shape = [o, m, m]) (hB : B.shape = [o, m, c]) (hI : invertibleBatch K = true) :
    (solveBatched K B).map Tensor.shape = some [o, m, c] := by
  simp [solveBatched, hK, hB, mat2, hI, bcast2, bcastRev_self, Tensor.ofFn]

theorem invQuad_33 (K A : Tensor) (o m c : Nat)
    (hK : K.shape = [o, m, m]) (hA : A.shape = [o, m, c]) (hI : invertibleBatch K = true) :
    (invQuad K A).map Tensor.shape = some [o, c] := by
  simp [invQuad, hK, hA, mat2, hI, bcast2, bcastRev_self, Tensor.ofFn]

theorem sub_same (a b : Tensor) (s : List Nat) (ha : a.shape = s) (hb : b.shape = s) :
    (a.sub b).map Tensor.shape = some s := by
  simp [Tensor.sub, ha, hb, bcast2_self, Tensor.ofFn]

theorem ok_bind (a : α) (f : α → Except PyErr β) :
    (Except.ok a : Except PyErr α) >>= f = f a := rfl

theorem err_bind (e : PyErr) (f : α → Except PyErr β) :
    (Except.error e : Except PyErr α) >>= f = Except.error e := rfl

theorem pure_bind_ex (a : α) (f : α → Except PyErr β) :
    (pure a : Except PyErr α) >>= f = f a := rfl

theorem squeezeLast_shape (t : Tensor) (s : List Nat) (h : t.shape = s ++ [1]) :
    t.squeezeLast = ⟨s, t.data⟩ := by
  cases t with
  | mk sh d =>
      simp only at h
      subst h
      exact squeezeLast_app s d

theorem modelPre_2d (L : GPLayer) (inputs : Tensor) (n m : Nat) (fm fc : Tensor)
    (hin : inputs.shape = [n, L.input_dims])
    (hip : L.inducing_points.shape = [L.output_dims, m, L.input_dims])
    (hfwd : ∀ t, t.shape = [L.output_dims, m + n, L.input_dims] → L.forward t = some (fm, fc))
    (hfm : fm.shape = [L.output_dims, m + n])
    (hfc : fc.shape = [L.output_dims, m + n, m + n]) :
    ∃ pre, modelPre L inputs = Except.ok pre ∧
      pre.num_induc = m ∧ pre.minibatch = n ∧ pre.num_samples = none ∧
      pre.induc_induc.shape = [L.output_dims, m, m] ∧
      pre.induc_data.shape = [L.output_dims, m, n] ∧
      pre.data_data.shape = [L.output_dims, n, n] := by
  have hsz1 : L.inducing_points.size (-2) = some m := size3_neg2 _ _ _ _ hip
  have hsz2 : inputs.size (-2) = some n := size2_neg2 _ _ _ hin
  have hd2 : inputs.dim = 2 := by simp [Tensor.dim, hin]
  have hunsq : inputs.unsqueeze 0 = some ⟨[1, n, L.input_dims], inputs.data⟩ := unsq0_2 _ _ _ hin
  have hsz3 : (Tensor.mk [1, n, L.input_dims] inputs.data).size (-2) = some n :=
    size3_neg2 _ _ _ _ rfl
  obtain ⟨ex, hex, hexs⟩ := shapeMap_some
    (expand_13 ⟨[1, n, L.input_dims], inputs.data⟩ n L.input_dims L.output_dims rfl)
  have hd3 : ex.dim = 3 := by simp [Tensor.dim, hexs]
  obtain ⟨fi, hfi, hfis⟩ := shapeMap_some (cat_n2_3 L.inducing_points ex _ _ _ _ hip hexs)
  have hfo : L.forward fi = some (fm, fc) := hfwd fi hfis
  obtain ⟨im, him, hims⟩ := shapeMap_some
    (slice1_to fm L.output_dims (m + n) m hfm (Nat.le_add_right m n))
  obtain ⟨tm, htm, _⟩ := shapeMap_some (slice1_from fm L.output_dims (m + n) m hfm)
  obtain ⟨ii, hii, hiis⟩ := shapeMap_some
    (slice2_tt fc L.output_dims (m + n) m hfc (Nat.le_add_right m n))
  obtain ⟨idc, hidc, hidcs⟩ := shapeMap_some
    (slice2_tf fc L.output_dims (m + n) m hfc (Nat.le_add_right m n))
  obtain ⟨ddc, hddc, hddcs⟩ := shapeMap_some (slice2_ff fc L.output_dims (m + n) m hfc)
  have hsub : m + n - m = n := by omega
  refine ⟨⟨m, n, none, im, tm, ii.addJitter, idc, ddc⟩, ?_, rfl, rfl, rfl, ?_, ?_, ?_⟩
  · simp only [modelPre, hsz1, liftO_some, ok_bind, hsz2, hd2, if_pos, hunsq, hsz3,
      hex, hd3, hfi, hfo, him, htm, hii, hidc, hddc]
    rw [if_neg (by decide : ¬ (3 = 4))]
    simp only [pure_bind_ex, ok_bind, liftO_some, hfi, hfo, him, htm, hii, hidc, hddc]
    rfl
  · rw [addJitter_shape, hiis]
  · rw [hidcs, hsub]
  · rw [hddcs, hsub]

theorem modelMid_2d (L : GPLayer) (pre : PreOut) (u : Tensor) (s : String) (m n : Nat)
    (hnp : L.namePfx = some s)
    (hns : pre.num_samples = none)
    (hii : pre.induc_induc.shape = [L.output_dims, m, m])
    (hid : pre.induc_data.shape = [L.output_dims, m, n])
    (hdd : pre.data_data.shape = [L.output_dims, n, n])
    (hu : u.shape = [L.output_dims, m])
    (hinv : invertibleBatch pre.induc_induc = true) :
    ∃ mid, modelMid L pre u = Except.ok mid ∧
      mid.means.shape = [L.output_dims, n] ∧
      mid.rawVar.shape = [L.output_dims, n] ∧
      mid.p_f_dist = ⟨mid.means, Cov.diagonal (mid.rawVar.clampMin 0)⟩ := by
  have hu1 : u.unsqueeze (-1) = some ⟨u.shape ++ [1], u.data⟩ := unsq_last u
  have hu1s : (Tensor.mk (u.shape ++ [1]) u.data).shape = [L.output_dims, m, 1] := by
    simp [hu]
  obtain ⟨sr, hsr, hsrs⟩ := shapeMap_some
    (solve_31 pre.induc_induc ⟨u.shape ++ [1], u.data⟩ L.output_dims m 1 hii hu1s hinv)
  have hsq : sr.squeezeLast = Tensor.mk [L.output_dims, m] sr.data :=
    squeezeLast_shape sr [L.output_dims, m] hsrs
  obtain ⟨dd, hddg, hdds⟩ := shapeMap_some (diag2_3 pre.data_data L.output_dims n hdd)
  obtain ⟨idT, hidT, hidTs⟩ := shapeMap_some
    (transpose_last2_3 pre.induc_data L.output_dims m n hid)
  have hs1 : (Tensor.mk [L.output_dims, m] sr.data).unsqueeze (-1) =
      some ⟨[L.output_dims, m] ++ [1], sr.data⟩ := unsq_last _
  obtain ⟨mm, hmm, hmms⟩ := shapeMap_some
    (matmul_33 idT ⟨[L.output_dims, m] ++ [1], sr.data⟩ L.output_dims n m 1 hidTs rfl)
  have hms : mm.squeezeLast = Tensor.mk [L.output_dims, n] mm.data :=
    squeezeLast_shape mm [L.output_dims, n] hmms
  obtain ⟨dc, hdc, hdcs⟩ := shapeMap_some
    (invQuad_33 pre.induc_induc pre.induc_data L.output_dims m n hii hid hinv)
  obtain ⟨rv, hrv, hrvs⟩ := shapeMap_some
    (sub_same dd dc [L.output_dims, n] hdds hdcs)
  refine ⟨⟨Tensor.mk [L.output_dims, m] sr.data, Tensor.mk [L.output_dims, n] mm.data,
    rv, ⟨Tensor.mk [L.output_dims, n] mm.data, Cov.diagonal (rv.clampMin 0)⟩⟩, ?_, rfl, hrvs, rfl⟩
  simp only [modelMid, hnp, ok_bind, hu1, liftO_some, hsr, hsq, hns, hddg, hidT, hs1,
    hmm, hms, hdc, hrv, pure_bind_ex]
  rfl

theorem modelMid_inv (L : GPLayer) (pre : PreOut) (u : Tensor) (mid : MidOut)
    (h : modelMid L pre u = Except.ok mid) :
    mid.p_f_dist = ⟨mid.means, Cov.diagonal (mid.rawVar.clampMin 0)⟩ := by
  unfold modelMid liftO at h
  repeat' (first
    | split at h
    | simp only [ok_bind, err_bind, pure_bind_ex] at h)
  all_goals (first
    | exact Except.noConfusion h
    | (injection h with h1; rw [← h1]))

theorem hiddenModel_false_dist (L : GPLayer) (x u e : Tensor) (r : ModelResult)
    (h : hiddenModel L x false u e = Except.ok r) : ∃ d, r = ModelResult.dist d := by
  unfold hiddenModel at h
  cases hp : modelPre L x with
  | error e2 => rw [hp] at h; exact Except.noConfusion h
  | ok pre =>
      rw [hp, ok_bind] at h
      cases hm : modelMid L pre u with
      | error e2 => rw [hm] at h; exact Except.noConfusion h
      | ok mid =>
          rw [hm, ok_bind] at h
          simp at h
          injection h with h1
          exact ⟨mid.p_f_dist, h1.symm⟩

theorem hiddenModel_attrError (L : GPLayer) (x u e : Tensor) (rs : Bool) (pre : PreOut)
    (hnp : L.namePfx = none) (hpre : modelPre L x = Except.ok pre) :
    hiddenModel L x rs u e = Except.error (PyErr.attr "name_prefix") := by
  have hm : modelMid L pre u = Except.error (PyErr.attr "name_prefix") := by
    unfold modelMid
    rw [hnp]
    rfl
  unfold hiddenModel
  rw [hpre, ok_bind, hm]
  rfl

theorem hiddenModel_never_ok (L : GPLayer) (x u e : Tensor) (rs : Bool)
    (hnp : L.namePfx = none) : ∀ v, hiddenModel L x rs u e ≠ Except.ok v := by
  intro v h
  unfold hiddenModel at h
  cases hp : modelPre L x with
  | error e2 => rw [hp] at h; exact Except.noConfusion h
  | ok pre =>
      rw [hp, ok_bind] at h
      have hm : modelMid L pre u = Except.error (PyErr.attr "name_prefix") := by
        unfold modelMid
        rw [hnp]
        rfl
      rw [hm] at h
      exact Except.noConfusion h

theorem deepObsStep_nameError (G : DeepGP) (o : Tensor) (pf : GaussDist) (mb : Nat)
    (s : String) (hnp : G.toLayer.namePfx = some s) (hmb : mb ≠ 0) :
    deepObsStep G o pf mb = Except.error (PyErr.nameE "f_samples") := by
  unfold deepObsStep
  rw [hnp, ok_bind, if_neg hmb]
  rfl

theorem deepObsStep_never_ok (G : DeepGP) (o : Tensor) (pf : GaussDist) (mb : Nat) :
    ∀ w, deepObsStep G o pf mb ≠ Except.ok w := by
  intro w h
  unfold deepObsStep at h
  cases hnp : G.toLayer.namePfx with
  | none => rw [hnp] at h; exact Except.noConfusion h
  | some s =>
      rw [hnp, ok_bind] at h
      by_cases hmb : mb = 0
      · rw [if_pos hmb] at h; exact Except.noConfusion h
      · rw [if_neg hmb] at h; exact Except.noConfusion h

theorem deepModel_never_ok (G : DeepGP) (i o : Tensor) (ds : List (Tensor × Tensor))
    (uT eT : Tensor) : ∀ w, deepModel G i o ds uT eT ≠ Except.ok w := by
  intro w h
  unfold deepModel at h
  cases hp : deepHiddenPass G.hidden_gp_layers i ds with
  | error e2 => rw [hp] at h; exact Except.noConfusion h
  | ok x =>
      rw [hp, ok_bind] at h
      unfold deepModelTail at h
      cases ht : hiddenModel G.toLayer x false uT eT with
      | error e2 => rw [ht] at h; exact Except.noConfusion h
      | ok r =>
          rw [ht, ok_bind] at h
          cases r with
          | samples t => exact Except.noConfusion h
          | dist d =>
              cases hsz : x.size (-2) with
              | none => rw [hsz] at h; exact Except.noConfusion h
              | some mb =>
                  rw [hsz] at h
                  exact deepObsStep_never_ok G o d mb w h

/-- C1 (amended): for every valid 2D input of shape (n, O_{i-1}), with the
GP-prior collaborator returning a correctly shaped joint mean/covariance,
an invertible jittered inducing block, a present `name_prefix` attribute,
and an inducing-values draw of the generative shape (O_i, m),
`AbstractPyroHiddenGPLayer.model` with `return_samples=False` returns a
predictive distribution whose mean and diagonal variance have shape
(O_i, n) — the channel axis stays leading; it is moved to trailing only in
the sampling branch — and every variance entry is ≥ 0. -/
theorem claim1_dist_channel_leading (L : GPLayer) (inputs u eps : Tensor) (n m : Nat)
    (fm fc : Tensor) (s : String)
    (hnp : L.namePfx = some s)
    (hin : inputs.shape = [n, L.input_dims])
    (hip : L.inducing_points.shape = [L.output_dims, m, L.input_dims])
    (hfwd : ∀ t, t.shape = [L.output_dims, m + n, L.input_dims] → L.forward t = some (fm, fc))
    (hfm : fm.shape = [L.output_dims, m + n])
    (hfc : fc.shape = [L.output_dims, m + n, m + n])
    (hu : u.shape = [L.output_dims, m])
    (hinv : ∀ pre, modelPre L inputs = Except.ok pre → invertibleBatch pre.induc_induc = true) :
    ∃ d, hiddenModel L inputs false u eps = Except.ok (ModelResult.dist d) ∧
      d.mean.shape = [L.output_dims, n] ∧
      ∃ v, d.cov = Cov.diagonal v ∧ v.shape = [L.output_dims, n] ∧ ∀ x ∈ v.data, 0 ≤ x := by
  obtain ⟨pre, hpre, _, _, hns, hiis, hids, hdds⟩ :=
    modelPre_2d L inputs n m fm fc hin hip hfwd hfm hfc
  obtain ⟨mid, hmid, hmeans, hraw, hpf⟩ :=
    modelMid_2d L pre u s m n hnp hns hiis hids hdds hu (hinv pre hpre)
  refine ⟨mid.p_f_dist, ?_, ?_, ?_⟩
  · simp only [hiddenModel, hpre, ok_bind, hmid]
    rfl
  · rw [hpf]
    exact hmeans
  · refine ⟨mid.rawVar.clampMin 0, by rw [hpf], ?_, clampMin_nonneg _⟩
    rw [clampMin_shape, hraw]

/-- Witness for C1: the concrete layer `Lc1` (one output channel, one
inducing point) on a 2-point minibatch, where the returned distribution
has mean and variance shape (O_i, n) = (1, 2). -/
theorem claim1_witness :
    ∃ d, hiddenModel Lc1 xc1 false uc1 t0 = Except.ok (ModelResult.dist d) ∧
      d.mean.shape = [Lc1.output_dims, 2] ∧
      ∃ v, d.cov = Cov.diagonal v ∧ v.shape = [Lc1.output_dims, 2] ∧ ∀ x ∈ v.data, 0 ≤ x :=
  claim1_dist_channel_leading Lc1 xc1 uc1 t0 2 1 meanC3pt covC3pt "h1" rfl rfl rfl
    (fun t ht => by simp [Lc1, forwardC] at ht ⊢; simp [ht])
    (by decide) (by decide) (by decide)
    (fun pre h => by
      have h0 : modelPre Lc1 xc1 = Except.ok preC1 := rfl
      rw [h0] at h
      injection h with h1
      rw [← h1]
      decide)

/-- C1 counterexample: at the concrete 2D input with n = 2 and O_i = 1 the
distribution returned by `model(return_samples=False)` has mean shape
[1, 2] = (O_i, n), not the claimed (n, O_i) = [2, 1]. -/
theorem claim1_counterexample :
    hiddenModel Lc1 xc1 false uc1 t0 = Except.ok (ModelResult.dist distC1) ∧
    distC1.mean.shape = [1, 2] ∧ distC1.mean.shape ≠ [2, 1] :=
  ⟨rfl, by decide, by decide⟩

/-- C2: evaluating `model(return_samples=True)` on concrete inputs shows
the claimed output shapes do not hold.  With a 2D input (n = 2, O_i = 1)
and an inducing draw carrying one replicate (p = 1) the code returns a
tensor of shape [1, 1, 2, 1] — a doubled sample prefix — instead of the
claimed (minibatch, O_i) = [2, 1]; with an inducing draw of the plain
generative shape (O_i, m) the `p_u_samples.size(-3)` lookup fails; and
with a 3D input (p = 1, n = 2) the doubly transposed cross-covariance
makes the mean matmul fail (minibatch ≠ num_induc). -/
theorem claim2_sample_shape_eval :
    (hiddenModel Lc1 xc1 true uc2 ec2 = Except.ok (ModelResult.samples sampC2) ∧
      sampC2.shape = [1, 1, 2, 1] ∧ sampC2.shape ≠ [2, 1]) ∧
    hiddenModel Lc1 xc1 true uc1 ec2 = Except.error (PyErr.shape "size") ∧
    hiddenModel Lc1 xc2c true uc2 ec2 = Except.error (PyErr.shape "matmul") :=
  ⟨⟨rfl, by decide, by decide⟩, rfl, rfl⟩

/-- C3: whenever `model(return_samples=False)` succeeds, the predictive
distribution's diagonal covariance is exactly the clamp-at-zero of the raw
variance `diag(K_xx) - diag_correction` (the clamp is applied before the
diagonal covariance is formed), every stored variance entry is ≥ 0, and
any entry whose raw value is negative is stored as exactly 0. -/
theorem claim3_variance_clamped (L : GPLayer) (inputs u eps : Tensor)
    (pre : PreOut) (mid : MidOut)
    (hpre : modelPre L inputs = Except.ok pre)
    (hmid : modelMid L pre u = Except.ok mid) :
    hiddenModel L inputs false u eps = Except.ok (ModelResult.dist mid.p_f_dist) ∧
    mid.p_f_dist.cov = Cov.diagonal (mid.rawVar.clampMin 0) ∧
    (∀ x ∈ (mid.rawVar.clampMin 0).data, 0 ≤ x) ∧
    (∀ k, mid.rawVar.data.getD k 0 < 0 → (mid.rawVar.clampMin 0).data.getD k 0 = 0) := by
  refine ⟨?_, ?_, clampMin_nonneg _, ?_⟩
  · simp only [hiddenModel, hpre, ok_bind, hmid]
    rfl
  · rw [modelMid_inv L pre u mid hmid]
  · intro k hk
    rw [clampMin_getD]
    exact fmax_zero_of_neg _ hk

/-- Witness for C3: a near-degenerate concrete case where the raw
variance entry is negative (-2999/4004) and the stored variance is
exactly 0. -/
theorem claim3_witness :
    hiddenModel Lc3 xc3 false uc1 t0 = Except.ok (ModelResult.dist midC3.p_f_dist) ∧
    midC3.rawVar.data.getD 0 0 < 0 ∧
    (midC3.rawVar.clampMin 0).data.getD 0 0 = 0 ∧
    ∀ x ∈ (midC3.rawVar.clampMin 0).data, 0 ≤ x :=
  ⟨(claim3_variance_clamped Lc3 xc3 uc1 t0 preC3 midC3 rfl rfl).1,
   by decide,
   (claim3_variance_clamped Lc3 xc3 uc1 t0 preC3 midC3 rfl rfl).2.2.2 0 (by decide),
   (claim3_variance_clamped Lc3 xc3 uc1 t0 preC3 midC3 rfl rfl).2.2.1⟩

/-- C4: the scale expression of `AbstractPyroDeepGP.model` (line 198)
computes exactly 100 for total_num_data = 1000 and minibatch 10, inside a
plate of size 10 at dim -1 — but the model never scores the observations:
on the concrete scenario it raises NameError on `f_samples` first. -/
theorem claim4_obs_scale_eval :
    (deepObsCtx "gp" 1000 10).scale = 100 ∧
    (deepObsCtx "gp" 1000 10).plateSize = 10 ∧
    (deepObsCtx "gp" 1000 10).plateDim = -1 ∧
    deepModel G4 x4 y4 [] uc1 t0 = Except.error (PyErr.nameE "f_samples") :=
  ⟨by decide, by decide, by decide, rfl⟩

/-- C5: `AbstractPyroDeepGP.model` feeds the inputs through the hidden
layers in stacking order with `return_samples=True` (each call consumes
the previous sample output), and hands the final tensor to the terminal
layer's `model` with `return_samples=False`, whose successful result is
always a distribution, never samples. -/
theorem claim5_layer_composition :
    (∀ (L : GPLayer) (rest : List GPLayer) (x u e t : Tensor) (ds : List (Tensor × Tensor)),
      hiddenModel L x true u e = Except.ok (ModelResult.samples t) →
      deepHiddenPass (L :: rest) x ((u, e) :: ds) = deepHiddenPass rest t ds) ∧
    (∀ (L : GPLayer) (x u e : Tensor) (r : ModelResult),
      hiddenModel L x false u e = Except.ok r → ∃ d, r = ModelResult.dist d) ∧
    (∀ (G : DeepGP) (i o : Tensor) (ds : List (Tensor × Tensor)) (uT eT x : Tensor),
      deepHiddenPass G.hidden_gp_layers i ds = Except.ok x →
      deepModel G i o ds uT eT = deepModelTail G o x uT eT) := by
  refine ⟨?_, hiddenModel_false_dist, ?_⟩
  · intro L rest x u e t ds h
    simp [deepHiddenPass, h]
  · intro G i o ds uT eT x h
    unfold deepModel
    rw [h, ok_bind]

/-- Witness for C5: a one-hidden-layer stack on concrete data. -/
theorem claim5_witness :
    deepHiddenPass [Lc1] xc1 [(uc2, ec2)] = deepHiddenPass [] sampC2 [] ∧
    (∃ d, ModelResult.dist distC1 = ModelResult.dist d) ∧
    deepModel Gc5 xc1 y4 [(uc2, ec2)] uc1 t0 = deepModelTail Gc5 y4 sampC2 uc1 t0 :=
  ⟨claim5_layer_composition.1 Lc1 [] xc1 uc2 ec2 sampC2 [] rfl,
   claim5_layer_composition.2.1 Lc1 xc1 uc1 t0 (ModelResult.dist distC1) rfl,
   claim5_layer_composition.2.2 Gc5 xc1 y4 [(uc2, ec2)] uc1 t0 sampC2 rfl⟩

/-- C6: `QuadratureDist.log_prob(target)` returns exactly
`likelihood.expected_log_prob(target, function_dist)`, and
`QuadratureDist.sample` produces no sample for any sample shape. -/
theorem claim6_quadrature_dist (lik : Likelihood) (fd : GaussDist)
    (target : Tensor) (ss : List Nat) :
    QuadratureDist.log_prob ⟨lik, fd⟩ target = lik.expected_log_prob target fd ∧
    QuadratureDist.sample ⟨lik, fd⟩ ss = none :=
  ⟨rfl, rfl⟩

/-- C7: in `AbstractPyroDeepGP.model` the observation distribution's
argument list resolves `f_samples` (and the observation uses `output`),
neither bound in the method scope, while the intended `p_f_dist` and
`outputs` are; consequently every execution reaching the
observation-scoring step raises NameError on `f_samples` instead of
scoring. -/
theorem claim7_obs_undefined_names :
    (undefinedRef? ["QuadratureDist", "self", "f_samples"] deepModelLocals = some "f_samples" ∧
     resolves "output" deepModelLocals = false ∧
     resolves "p_f_dist" deepModelLocals = true ∧
     resolves "outputs" deepModelLocals = true) ∧
    (∀ (G : DeepGP) (o : Tensor) (pf : GaussDist) (mb : Nat) (s : String),
      G.toLayer.namePfx = some s → mb ≠ 0 →
      deepObsStep G o pf mb = Except.error (PyErr.nameE "f_samples")) ∧
    (∀ (G : DeepGP) (i o : Tensor) (ds : List (Tensor × Tensor)) (uT eT x : Tensor)
        (pf : GaussDist) (mb : Nat) (s : String),
      deepHiddenPass G.hidden_gp_layers i ds = Except.ok x →
      hiddenModel G.toLayer x false uT eT = Except.ok (ModelResult.dist pf) →
      x.size (-2) = some mb → mb ≠ 0 → G.toLayer.namePfx = some s →
      deepModel G i o ds uT eT = Except.error (PyErr.nameE "f_samples")) := by
  refine ⟨⟨by decide, by decide, by decide, by decide⟩, deepObsStep_nameError, ?_⟩
  intro G i o ds uT eT x pf mb s hpass hterm hsz hmb hnp
  unfold deepModel deepModelTail
  rw [hpass, ok_bind, hterm, ok_bind]
  show (do
    let mb2 ← liftO (x.size (-2)) (PyErr.shape "size")
    deepObsStep G o pf mb2) = Except.error (PyErr.nameE "f_samples")
  rw [hsz, liftO_some, ok_bind]
  exact deepObsStep_nameError G o pf mb s hnp hmb

/-- Witness for C7: the concrete deep GP scenario reaching the
observation step fails with NameError on `f_samples`. -/
theorem claim7_witness :
    deepObsStep G4 y4 distC1 10 = Except.error (PyErr.nameE "f_samples") :=
  claim7_obs_undefined_names.2.1 G4 y4 distC1 10 "gp" rfl (by decide)

/-- C8: `AbstractPyroHiddenGPLayer.model` with `return_samples=True` is a
deterministic function of its inputs and its random draws — two calls
with equal inputs, equal inducing-value draws and equal rsample draws
return equal results. -/
theorem claim8_model_deterministic (L : GPLayer) (i1 i2 u1 u2 e1 e2 : Tensor)
    (hi : i1 = i2) (hu : u1 = u2) (he : e1 = e2) :
    hiddenModel L i1 true u1 e1 = hiddenModel L i2 true u2 e2 := by
  rw [hi, hu, he]

/-- Witness for C8: the concrete sampling call, replayed. -/
theorem claim8_witness :
    hiddenModel Lc1 xc1 true uc2 ec2 = hiddenModel Lc1 xc1 true uc2 ec2 :=
  claim8_model_deterministic Lc1 xc1 xc1 uc2 uc2 ec2 ec2 rfl rfl rfl

/-- C9: `__init__` never assigns `self.name_prefix` (the constructed
layer's attribute is absent); `model` reads it when naming the
inducing-values site, so no call with an unset attribute ever returns a
value and any call whose earlier tensor steps succeed fails with exactly
AttributeError on `name_prefix`; `guide` references the bare name
`name_prefix` and always fails with NameError; and
`AbstractPyroDeepGP.model` (which also reads the attribute and then hits
the `f_samples` NameError) never returns a value either. -/
theorem claim9_name_prefix_missing :
    (∀ (ind : Tensor) (i o : Nat) (np : String) (fwd : Tensor → Option (Tensor × Tensor)),
      (hiddenInit ind i o np fwd).namePfx = none) ∧
    (∀ (L : GPLayer) (x u e : Tensor) (rs : Bool) (pre : PreOut),
      L.namePfx = none → modelPre L x = Except.ok pre →
      hiddenModel L x rs u e = Except.error (PyErr.attr "name_prefix")) ∧
    (∀ (L : GPLayer) (x u e : Tensor) (rs : Bool),
      L.namePfx = none → ∀ v, hiddenModel L x rs u e ≠ Except.ok v) ∧
    (∀ (L : GPLayer) (q : Tensor), hiddenGuide L q = Except.error (PyErr.nameE "name_prefix")) ∧
    (∀ (G : DeepGP) (i o : Tensor) (ds : List (Tensor × Tensor)) (uT eT : Tensor),
      ∀ w, deepModel G i o ds uT eT ≠ Except.ok w) :=
  ⟨fun _ _ _ _ _ => rfl,
   fun L x u e rs pre hnp hpre => hiddenModel_attrError L x u e rs pre hnp hpre,
   fun L x u e rs hnp => hiddenModel_never_ok L x u e rs hnp,
   fun _ _ => rfl,
   fun G i o ds uT eT => deepModel_never_ok G i o ds uT eT⟩

/-- Witness for C9: the layer as `__init__` builds it (attribute absent)
fails with AttributeError in `model` and NameError in `guide`. -/
theorem claim9_witness :
    hiddenModel Lc9 xc1 false uc1 t0 = Except.error (PyErr.attr "name_prefix") ∧
    hiddenGuide Lc9 t0 = Except.error (PyErr.nameE "name_prefix") ∧
    (hiddenInit ipC 1 1 "h1" forwardC).namePfx = none :=
  ⟨claim9_name_prefix_missing.2.1 Lc9 xc1 uc1 t0 false preC1 rfl rfl,
   claim9_name_prefix_missing.2.2.2.1 Lc9 t0,
   claim9_name_prefix_missing.1 ipC 1 1 "h1" forwardC⟩

/-- C10: the parameter list of `AbstractPyroDeepGP.__init__` places the
non-default `hidden_gp_layers` after the defaulted `name_prefix`, which
violates Python's parameter rule, so the module as written fails to
compile and nothing in the file is callable. -/
theorem claim10_syntax_error :
    pyParamsOk deepGPInitParams = false ∧ pyModuleLoads = false :=
  ⟨by decide, by decide⟩
